import Mathlib

/-!
Shallow embedding of the weather-prediction pipeline
(`app/model_predictor.py`, `app/weather_fetcher.py`, `app/weather_api.py`)
and proofs of the specification claims about it.

Conventions of the embedding:
* JSON numbers and Python floats are modelled as rationals (`ℚ`); the derived
  trigonometric features live in `ℝ` via `Real.sin` / `Real.cos`
  (`np.sin` / `np.cos`).
* A weather dictionary is an association list `List (String × Option ℚ)`;
  a key bound to `none` models a JSON `null` (Python `None`) that the
  upstream API can return for a measurement, an absent key models a missing
  measurement.  A feature cell is an `Option ℝ`: `none` is a Python `None`
  that ended up inside the numpy row.
* Python exceptions become an explicit error type; functions that can raise
  return `Except PyError α`.
* The process-wide model cache (module-level globals) is passed as explicit
  state: each loader takes the cache and returns the updated cache together
  with its result.
-/

namespace WeatherApp

/-- A calendar date as held by Python's `datetime` (year, month, day). -/
structure Date where
  year : ℕ
  month : ℕ
  day : ℕ
deriving DecidableEq, Repr

/-- Python `datetime` accepts years 1..9999, months 1..12 and days valid for
the month; this is the validity predicate of a parsed `%Y-%m-%d` date. -/
def isLeap (y : ℕ) : Bool :=
  (y % 4 == 0 && y % 100 != 0) || y % 400 == 0

/-- Length of a month in the proleptic Gregorian calendar used by
`datetime.date`. -/
def daysInMonth (y m : ℕ) : ℕ :=
  if m = 2 then (if isLeap y then 29 else 28)
  else if m = 4 ∨ m = 6 ∨ m = 9 ∨ m = 11 then 30
  else 31

def ValidDate (d : Date) : Prop :=
  1 ≤ d.year ∧ d.year ≤ 9999 ∧ 1 ≤ d.month ∧ d.month ≤ 12 ∧
    1 ≤ d.day ∧ d.day ≤ daysInMonth d.year d.month

instance (d : Date) : Decidable (ValidDate d) := by
  unfold ValidDate; infer_instance

/-- Successor day in the Gregorian calendar. -/
def nextDay (d : Date) : Date :=
  if d.day < daysInMonth d.year d.month then ⟨d.year, d.month, d.day + 1⟩
  else if d.month < 12 then ⟨d.year, d.month + 1, 1⟩
  else ⟨d.year + 1, 1, 1⟩

/-- `date_obj + timedelta(days=n)`: `datetime` date arithmetic, which on
valid dates agrees with iterating the successor day. -/
def addDays (d : Date) (n : ℕ) : Date :=
  match n with
  | 0 => d
  | n + 1 => nextDay (addDays d n)

/-- Zero-padded decimal rendering (`%Y` pads to 4 digits, `%m`/`%d` to 2). -/
def padNum (w n : ℕ) : String :=
  let s := toString n
  String.mk (List.replicate (w - s.length) '0') ++ s

/-- `date_obj.strftime("%Y-%m-%d")`. -/
def formatDate (d : Date) : String :=
  padNum 4 d.year ++ "-" ++ padNum 2 d.month ++ "-" ++ padNum 2 d.day

/-- Python `date` comparison `a < b` (lexicographic on year, month, day). -/
def Date.ltB (a b : Date) : Bool :=
  a.year < b.year ||
    (a.year == b.year &&
      (a.month < b.month || (a.month == b.month && a.day < b.day)))

/-- The weather dictionary built by the fetchers: measurement name to value,
where a value of `none` is a JSON `null` kept verbatim. -/
def WeatherData := List (String × Option ℚ)

instance : DecidableEq WeatherData := by
  unfold WeatherData; infer_instance

/-- Python `weather_data.get(key, default)`: the stored value when the key is
present (even when that value is `None`), otherwise the default. -/
def dictGet (w : WeatherData) (key : String) (default : ℚ) : Option ℚ :=
  match List.lookup key w with
  | some v => v
  | none => some default

/-- `np.radians(x) = x * π / 180`. -/
noncomputable def radians (θ : ℚ) : ℝ := (θ : ℝ) * Real.pi / 180

/-- The wind direction used by both encoders:
`weather_data.get('wind_direction_10m_dominant', 0)` followed by the explicit
`if wind_direction is None: wind_direction = 0` guard. -/
def windDirectionOf (w : WeatherData) : ℚ :=
  (dictGet w "wind_direction_10m_dominant" 0).getD 0

/-- The weather code used by both encoders:
`weather_data.get('weather_code', 0)` followed by the explicit
`if weather_code is None: weather_code = 0` guard. -/
def weatherCodeOf (w : WeatherData) : ℚ :=
  (dictGet w "weather_code" 0).getD 0

/-- `int(weather_code == 63 or weather_code == 65)` as a real-valued cell. -/
noncomputable def heavyRainIndicator (w : WeatherData) : ℝ :=
  if weatherCodeOf w = 63 ∨ weatherCodeOf w = 65 then 1 else 0

/-- `month_angle = 2 * np.pi * (month - 1) / 12` for `month = date_obj.month`. -/
noncomputable def monthAngle (month : ℕ) : ℝ :=
  2 * Real.pi * ((month : ℝ) - 1) / 12

/-- A direct measurement cell: the dictionary value with default 0, carried
into the numpy row as-is (so a present `null` stays `None` in the row). -/
def rawCell (w : WeatherData) (key : String) : Option ℝ :=
  (dictGet w key 0).map (fun q => (q : ℝ))

/-- The `feature_order` list of `prepare_rain_features`. -/
def rain_feature_order : List String :=
  [ "temperature_2m_max"
  , "temperature_2m_min"
  , "apparent_temperature_max"
  , "apparent_temperature_min"
  , "daylight_duration"
  , "shortwave_radiation_sum"
  , "et0_fao_evapotranspiration"
  , "wind_speed_10m_max"
  , "wind_gusts_10m_max"
  , "wind_direction_sin"
  , "wind_direction_cos"
  , "is_weather_code_63_or_65"
  , "season_sin"
  , "season_cos" ]

/-- `prepare_rain_features(weather_data, date_obj)`: builds the `features`
dictionary in source order, then reads it back through `feature_order`.
The source wraps the row in a 1×14 `np.array`; we model the single row.
Every name of `feature_order` is a key of the dictionary, so the `none`
branch of the lookup (a `KeyError` in Python) is unreachable and flattened
away by `Option.join`. -/
noncomputable def prepare_rain_features (w : WeatherData) (month : ℕ) :
    List (Option ℝ) :=
  let features : List (String × Option ℝ) :=
    [ ("temperature_2m_max", rawCell w "temperature_2m_max")
    , ("temperature_2m_min", rawCell w "temperature_2m_min")
    , ("apparent_temperature_max", rawCell w "apparent_temperature_max")
    , ("apparent_temperature_min", rawCell w "apparent_temperature_min")
    , ("daylight_duration", rawCell w "daylight_duration")
    , ("shortwave_radiation_sum", rawCell w "shortwave_radiation_sum")
    , ("et0_fao_evapotranspiration", rawCell w "et0_fao_evapotranspiration")
    , ("wind_speed_10m_max", rawCell w "wind_speed_10m_max")
    , ("wind_gusts_10m_max", rawCell w "wind_gusts_10m_max")
    , ("wind_direction_sin", some (Real.sin (radians (windDirectionOf w))))
    , ("wind_direction_cos", some (Real.cos (radians (windDirectionOf w))))
    , ("is_weather_code_63_or_65", some (heavyRainIndicator w))
    , ("season_sin", some (Real.sin (monthAngle month)))
    , ("season_cos", some (Real.cos (monthAngle month))) ]
  rain_feature_order.map (fun n => (List.lookup n features).join)

/-- The `feature_order` list of `prepare_precipitation_features`. -/
def precip_feature_order : List String :=
  [ "precipitation_sum"
  , "precipitation_hours"
  , "temperature_2m_max"
  , "temperature_2m_min"
  , "apparent_temperature_max"
  , "apparent_temperature_min"
  , "sunshine_duration"
  , "daylight_duration"
  , "wind_direction_sin"
  , "wind_direction_cos"
  , "is_weather_code_63_or_65"
  , "season_sin"
  , "season_cos" ]

/-- `prepare_precipitation_features(weather_data, date_obj)`, modelled the
same way as `prepare_rain_features`. -/
noncomputable def prepare_precipitation_features (w : WeatherData) (month : ℕ) :
    List (Option ℝ) :=
  let features : List (String × Option ℝ) :=
    [ ("precipitation_sum", rawCell w "precipitation_sum")
    , ("precipitation_hours", rawCell w "precipitation_hours")
    , ("temperature_2m_max", rawCell w "temperature_2m_max")
    , ("temperature_2m_min", rawCell w "temperature_2m_min")
    , ("apparent_temperature_max", rawCell w "apparent_temperature_max")
    , ("apparent_temperature_min", rawCell w "apparent_temperature_min")
    , ("sunshine_duration", rawCell w "sunshine_duration")
    , ("daylight_duration", rawCell w "daylight_duration")
    , ("wind_direction_sin", some (Real.sin (radians (windDirectionOf w))))
    , ("wind_direction_cos", some (Real.cos (radians (windDirectionOf w))))
    , ("is_weather_code_63_or_65", some (heavyRainIndicator w))
    , ("season_sin", some (Real.sin (monthAngle month)))
    , ("season_cos", some (Real.cos (monthAngle month))) ]
  precip_feature_order.map (fun n => (List.lookup n features).join)

/-- The Python exception kinds raised by the pipeline. -/
inductive PyError where
  | valueError (msg : String)
  | connectionError (msg : String)
  | fileNotFoundError (msg : String)
  | runtimeError (msg : String)
deriving DecidableEq, Repr

/-- True exactly for the `ValueError` kind (the kind raised for malformed or
future dates). -/
def PyError.isValueError : PyError → Bool
  | .valueError _ => true
  | _ => false

/-- True exactly for the `ConnectionError` kind. -/
def PyError.isConnectionError : PyError → Bool
  | .connectionError _ => true
  | _ => false

/-- The error kind of an `Except PyError` result, `none` on success. -/
def errKind {α : Type} : Except PyError α → Option PyError
  | .error e => some e
  | .ok _ => none

/-- Body of an HTTP response from Open Meteo, as far as the fetchers look at
it: unparsable JSON, JSON without a `daily` object, or a `daily` object
mapping each variable to its per-day list of (possibly null) values. -/
inductive Body where
  | badJson
  | noDaily
  | daily (d : List (String × List (Option ℚ)))

/-- Outcome of the `requests.get` call: one of the caught request
exceptions, or a response with a status code and body. -/
inductive NetOutcome where
  | timeout
  | connectionFailed
  | otherException
  | response (status : ℕ) (body : Body)

/-- The `daily`-to-dictionary loop shared by both fetchers:
`for key, values in daily_data.items(): if key != "time" and values:
weather_dict[key] = values[0]`. -/
def extractDaily (daily : List (String × List (Option ℚ))) : WeatherData :=
  daily.filterMap (fun kv =>
    match kv with
    | (_, []) => none
    | (k, v :: _) => if k = "time" then none else some (k, v))

/-- `weather_fetcher.fetch_weather_for_date(date_str)`.  `parse` is the
outcome of `datetime.strptime(date_str, "%Y-%m-%d")` (`none` when it raises),
`today` is `datetime.now(sydney_tz).date()`, and `net` the HTTP outcome. -/
def fetch_weather_for_date (parse : Option Date) (today : Date)
    (net : NetOutcome) : Except PyError WeatherData :=
  match parse with
  | none => .error (.valueError "Invalid date format")
  | some d =>
    if Date.ltB today d then
      .error (.valueError "Cannot fetch weather data for future date")
    else
      match net with
      | .timeout => .error (.connectionError "API request timed out")
      | .connectionFailed =>
          .error (.connectionError "Failed to connect to Open Meteo API")
      | .otherException =>
          .error (.connectionError "Unexpected error connecting to API")
      | .response status body =>
        if status ≠ 200 then
          .error (.valueError "Open Meteo API returned error")
        else
          match body with
          | .badJson => .error (.valueError "Received invalid JSON")
          | .noDaily => .error (.valueError "missing daily data")
          | .daily daily =>
            let weather_dict := extractDaily daily
            if weather_dict = ([] : WeatherData) then
              .error (.valueError "The API returned empty data")
            else .ok weather_dict

/-- `weather_api.get_weather(date_str)` (the fetcher used by the alternative
`predictor.py` module).  `requests.raise_for_status` raises for 4xx/5xx
status codes; every exception of the request block, including that one and a
JSON decode failure, is re-raised as `ConnectionError`. -/
def get_weather (parse : Option Date) (today : Date) (net : NetOutcome) :
    Except PyError WeatherData :=
  match parse with
  | none => .error (.valueError "time data does not match format")
  | some d =>
    if Date.ltB today d then
      .error (.valueError "is in the future")
    else
      match net with
      | .timeout => .error (.connectionError "Failed to fetch weather data")
      | .connectionFailed =>
          .error (.connectionError "Failed to fetch weather data")
      | .otherException =>
          .error (.connectionError "Failed to fetch weather data")
      | .response status body =>
        if 400 ≤ status then
          .error (.connectionError "Failed to fetch weather data")
        else
          match body with
          | .badJson => .error (.connectionError "Failed to fetch weather data")
          | .noDaily => .error (.valueError "No weather data available")
          | .daily daily => .ok (extractDaily daily)

/-- The opaque rain classifier: `predict_proba(X)[0, 1]`, the probability of
the positive class on the (scaled) feature row. -/
structure RainModel where
  predict_proba : List (Option ℝ) → ℚ

/-- The opaque fitted scaler: `transform` applied to the feature row. -/
structure Scaler where
  transform : List (Option ℝ) → List (Option ℝ)

/-- The opaque precipitation regressor: `predict(X)[0]`. -/
structure PrecipModel where
  predict : List (Option ℝ) → ℚ

/-- What sits on disk for the rain task: three existence bits
(`os.path.exists`) and the outcome of deserialising each artifact
(`joblib.load` / reading and `float`-parsing `threshold.txt`). -/
structure RainStorage (M S : Type) where
  model_exists : Bool
  scaler_exists : Bool
  threshold_exists : Bool
  load_model : Except String M
  load_scaler : Except String S
  read_threshold : Except String ℚ

/-- The rain task's module-level cache
(`_rain_model`, `_rain_scaler`, `_rain_threshold`). -/
structure RainCache (M S : Type) where
  model : Option M
  scaler : Option S
  threshold : Option ℚ

/-- The all-`None` initial state of the rain cache. -/
def emptyRainCache (M S : Type) : RainCache M S := ⟨none, none, none⟩

/-- `load_rain_models()`.  The cache globals are explicit state; the
returned triple is the raw globals, exactly as the source returns them.
A failure inside the `try` block resets all three globals before
re-raising, so the net state after a failed load is the empty cache. -/
def load_rain_models {M S : Type} (s : RainStorage M S) (st : RainCache M S) :
    RainCache M S × Except PyError (Option M × Option S × Option ℚ) :=
  match st.model with
  | some _ => (st, .ok (st.model, st.scaler, st.threshold))
  | none =>
    if !s.model_exists then
      (st, .error (.fileNotFoundError "Rain model not found"))
    else if !s.scaler_exists then
      (st, .error (.fileNotFoundError "Rain scaler not found"))
    else if !s.threshold_exists then
      (st, .error (.fileNotFoundError "Rain threshold file not found"))
    else
      match s.load_model with
      | .error e =>
          (emptyRainCache M S, .error (.runtimeError ("Failed to load rain models: " ++ e)))
      | .ok m =>
        match s.load_scaler with
        | .error e =>
            (emptyRainCache M S, .error (.runtimeError ("Failed to load rain models: " ++ e)))
        | .ok sc =>
          match s.read_threshold with
          | .error e =>
              (emptyRainCache M S, .error (.runtimeError ("Failed to load rain models: " ++ e)))
          | .ok t =>
            if 0 ≤ t ∧ t ≤ 1 then
              (⟨some m, some sc, some t⟩, .ok (some m, some sc, some t))
            else
              (emptyRainCache M S, .error (.runtimeError "Threshold must be between 0 and 1"))

/-- What sits on disk for the precipitation task. -/
structure PrecipStorage (M S : Type) where
  model_exists : Bool
  scaler_exists : Bool
  load_model : Except String M
  load_scaler : Except String S

/-- The precipitation task's module-level cache
(`_precip_model`, `_precip_scaler`). -/
structure PrecipCache (M S : Type) where
  model : Option M
  scaler : Option S

/-- The all-`None` initial state of the precipitation cache. -/
def emptyPrecipCache (M S : Type) : PrecipCache M S := ⟨none, none⟩

/-- `load_precipitation_models()`, modelled like `load_rain_models`. -/
def load_precipitation_models {M S : Type} (s : PrecipStorage M S)
    (st : PrecipCache M S) :
    PrecipCache M S × Except PyError (Option M × Option S) :=
  match st.model with
  | some _ => (st, .ok (st.model, st.scaler))
  | none =>
    if !s.model_exists then
      (st, .error (.fileNotFoundError "Precipitation model not found"))
    else if !s.scaler_exists then
      (st, .error (.fileNotFoundError "Precipitation scaler not found"))
    else
      match s.load_model with
      | .error e =>
          (emptyPrecipCache M S, .error (.runtimeError ("Failed to load precipitation models: " ++ e)))
      | .ok m =>
        match s.load_scaler with
        | .error e =>
            (emptyPrecipCache M S, .error (.runtimeError ("Failed to load precipitation models: " ++ e)))
        | .ok sc => (⟨some m, some sc⟩, .ok (some m, some sc))

/-- Round to the nearest integer, ties to even: the rounding Python's
float formatting applies to the (exact) value of the float. -/
def roundHalfEven (x : ℚ) : ℤ :=
  let f := ⌊x⌋
  let frac := x - f
  if frac < 1 / 2 then f
  else if 1 / 2 < frac then f + 1
  else if f % 2 = 0 then f else f + 1

/-- Python `f"{q:.1f}"` on the exact value `q` of the float: round the
magnitude to tenths half-to-even, render with a single fraction digit, and
prepend the sign.  (A float `-0.0` is not representable in `ℚ`; it never
reaches this formatter because the pipeline clamps at 0 first.) -/
def formatOneDec (q : ℚ) : String :=
  let sign := if q < 0 then "-" else ""
  let m := (roundHalfEven (|q| * 10)).toNat
  sign ++ toString (m / 10) ++ "." ++ String.singleton (Nat.digitChar (m % 10))

/-- The rain response record
`{"input_date": ..., "prediction": {"date": ..., "will_rain": ...}}`. -/
structure RainPrediction where
  date : String
  will_rain : Bool
deriving DecidableEq, Repr

structure RainResult where
  input_date : String
  prediction : RainPrediction
deriving DecidableEq, Repr

/-- The precipitation response record. -/
structure PrecipPrediction where
  start_date : String
  end_date : String
  precipitation_fall : String
deriving DecidableEq, Repr

structure PrecipResult where
  input_date : String
  prediction : PrecipPrediction
deriving DecidableEq, Repr

/-- `model_predictor.predict_rain(date_str)`.  `parse` is the outcome of the
`strptime` call (the same string is re-parsed identically inside
`fetch_weather_for_date`, so the same outcome is forwarded there); the cache
is explicit state.  The artifact triple returned by a successful load is
unpacked where the source first calls a method on it; the `None` fallback
branch (an `AttributeError` in Python) is unreachable from consistent
caches. -/
noncomputable def predict_rain (date_str : String) (parse : Option Date)
    (storage : RainStorage RainModel Scaler)
    (cache : RainCache RainModel Scaler) (today : Date) (net : NetOutcome) :
    RainCache RainModel Scaler × Except PyError RainResult :=
  match parse with
  | none =>
      (cache, .error (.valueError ("Invalid date format: " ++ date_str)))
  | some date_obj =>
    let prediction_date := addDays date_obj 7
    match load_rain_models storage cache with
    | (cache', .error e) => (cache', .error e)
    | (cache', .ok arts) =>
      match fetch_weather_for_date (some date_obj) today net with
      | .error e => (cache', .error e)
      | .ok weather_data =>
        match arts with
        | (some model, some scaler, some threshold) =>
          let X := prepare_rain_features weather_data date_obj.month
          let X_scaled := scaler.transform X
          let probability := model.predict_proba X_scaled
          let will_rain := decide (probability ≥ threshold)
          (cache', .ok
            { input_date := date_str
            , prediction :=
              { date := formatDate prediction_date
              , will_rain := will_rain } })
        | _ => (cache', .error (.runtimeError "artifact missing"))

/-- `model_predictor.predict_precipitation(date_str)`, modelled like
`predict_rain`. -/
noncomputable def predict_precipitation (date_str : String)
    (parse : Option Date) (storage : PrecipStorage PrecipModel Scaler)
    (cache : PrecipCache PrecipModel Scaler) (today : Date)
    (net : NetOutcome) :
    PrecipCache PrecipModel Scaler × Except PyError PrecipResult :=
  match parse with
  | none =>
      (cache, .error (.valueError ("Invalid date format: " ++ date_str)))
  | some date_obj =>
    let start_date := addDays date_obj 1
    let end_date := addDays date_obj 3
    match load_precipitation_models storage cache with
    | (cache', .error e) => (cache', .error e)
    | (cache', .ok arts) =>
      match fetch_weather_for_date (some date_obj) today net with
      | .error e => (cache', .error e)
      | .ok weather_data =>
        match arts with
        | (some model, some scaler) =>
          let X := prepare_precipitation_features weather_data date_obj.month
          let X_scaled := scaler.transform X
          let precipitation_mm := max 0 (model.predict X_scaled)
          (cache', .ok
            { input_date := date_str
            , prediction :=
              { start_date := formatDate start_date
              , end_date := formatDate end_date
              , precipitation_fall := formatOneDec precipitation_mm } })
        | _ => (cache', .error (.runtimeError "artifact missing"))

/-- The reachable cache states of the rain task: all globals `None`, or all
three set by a successful load. -/
def ConsistentRain {M S : Type} (st : RainCache M S) : Prop :=
  st = emptyRainCache M S ∨ ∃ m sc t, st = RainCache.mk (some m) (some sc) (some t)

/-- The reachable cache states of the precipitation task. -/
def ConsistentPrecip {M S : Type} (st : PrecipCache M S) : Prop :=
  st = emptyPrecipCache M S ∨ ∃ m sc, st = PrecipCache.mk (some m) (some sc)

/-! ### Concrete environments used by the pipeline witnesses -/

def M0 : RainModel := RainModel.mk (fun _ => 0)

def SC0 : Scaler := Scaler.mk (fun X => X)

def RST0 : RainStorage RainModel Scaler :=
  RainStorage.mk true true true (.ok M0) (.ok SC0) (.ok 0)

def PM0 : PrecipModel := PrecipModel.mk (fun _ => -3 / 10)

def PST0 : PrecipStorage PrecipModel Scaler :=
  PrecipStorage.mk true true (.ok PM0) (.ok SC0)

def D0 : Date := Date.mk 2024 9 15

def TODAY0 : Date := Date.mk 2025 1 1

def NET0 : NetOutcome :=
  .response 200 (.daily [("temperature_2m_max", [some 25])])

def W0 : WeatherData := [("temperature_2m_max", some 25)]

def RCACHE1 : RainCache RainModel Scaler :=
  RainCache.mk (some M0) (some SC0) (some 0)

def PCACHE1 : PrecipCache PrecipModel Scaler :=
  PrecipCache.mk (some PM0) (some SC0)

def R1 : RainResult :=
  RainResult.mk "2024-09-15" (RainPrediction.mk "2024-09-22" true)

def P1 : PrecipResult :=
  PrecipResult.mk "2024-09-15"
    (PrecipPrediction.mk "2024-09-16" "2024-09-18" "0.0")

/-- The nine direct-measurement features of the rain schema and their
positions. -/
def rain_direct_positions : List (String × ℕ) :=
  [ ("temperature_2m_max", 0), ("temperature_2m_min", 1)
  , ("apparent_temperature_max", 2), ("apparent_temperature_min", 3)
  , ("daylight_duration", 4), ("shortwave_radiation_sum", 5)
  , ("et0_fao_evapotranspiration", 6), ("wind_speed_10m_max", 7)
  , ("wind_gusts_10m_max", 8) ]

/-- The eight direct-measurement features of the precipitation schema and
their positions. -/
def precip_direct_positions : List (String × ℕ) :=
  [ ("precipitation_sum", 0), ("precipitation_hours", 1)
  , ("temperature_2m_max", 2), ("temperature_2m_min", 3)
  , ("apparent_temperature_max", 4), ("apparent_temperature_min", 5)
  , ("sunshine_duration", 6), ("daylight_duration", 7) ]


/-! ### Helper lemmas about the encoders -/

/-- The rain feature row written out cell by cell, in source order. -/
lemma prepare_rain_features_eq (w : WeatherData) (month : ℕ) :
    prepare_rain_features w month =
      [ rawCell w "temperature_2m_max"
      , rawCell w "temperature_2m_min"
      , rawCell w "apparent_temperature_max"
      , rawCell w "apparent_temperature_min"
      , rawCell w "daylight_duration"
      , rawCell w "shortwave_radiation_sum"
      , rawCell w "et0_fao_evapotranspiration"
      , rawCell w "wind_speed_10m_max"
      , rawCell w "wind_gusts_10m_max"
      , some (Real.sin (radians (windDirectionOf w)))
      , some (Real.cos (radians (windDirectionOf w)))
      , some (heavyRainIndicator w)
      , some (Real.sin (monthAngle month))
      , some (Real.cos (monthAngle month)) ] := by
  rfl

/-- The precipitation feature row written out cell by cell, in source order. -/
lemma prepare_precipitation_features_eq (w : WeatherData) (month : ℕ) :
    prepare_precipitation_features w month =
      [ rawCell w "precipitation_sum"
      , rawCell w "precipitation_hours"
      , rawCell w "temperature_2m_max"
      , rawCell w "temperature_2m_min"
      , rawCell w "apparent_temperature_max"
      , rawCell w "apparent_temperature_min"
      , rawCell w "sunshine_duration"
      , rawCell w "daylight_duration"
      , some (Real.sin (radians (windDirectionOf w)))
      , some (Real.cos (radians (windDirectionOf w)))
      , some (heavyRainIndicator w)
      , some (Real.sin (monthAngle month))
      , some (Real.cos (monthAngle month)) ] := by
  rfl


lemma rawCell_of_absent {w : WeatherData} {k : String}
    (h : List.lookup k w = none) : rawCell w k = some 0 := by
  unfold rawCell dictGet
  rw [h]
  simp

lemma windDirectionOf_of_null {w : WeatherData}
    (h : List.lookup "wind_direction_10m_dominant" w = some none) :
    windDirectionOf w = 0 := by
  unfold windDirectionOf dictGet
  rw [h]
  rfl

lemma weatherCodeOf_of_null {w : WeatherData}
    (h : List.lookup "weather_code" w = some none) : weatherCodeOf w = 0 := by
  unfold weatherCodeOf dictGet
  rw [h]
  rfl

lemma weatherCodeOf_of_absent {w : WeatherData}
    (h : List.lookup "weather_code" w = none) : weatherCodeOf w = 0 := by
  unfold weatherCodeOf dictGet
  rw [h]
  rfl

lemma heavyRainIndicator_of_not {w : WeatherData}
    (h : ¬(weatherCodeOf w = 63 ∨ weatherCodeOf w = 65)) :
    heavyRainIndicator w = 0 := by
  unfold heavyRainIndicator
  rw [if_neg h]

lemma radians_zero : radians 0 = 0 := by
  unfold radians
  norm_num

lemma radians_360 : radians 360 = 2 * Real.pi := by
  unfold radians
  push_cast
  ring

lemma monthAngle_one : monthAngle 1 = 0 := by
  unfold monthAngle
  norm_num

lemma monthAngle_thirteen : monthAngle 13 = 2 * Real.pi := by
  unfold monthAngle
  push_cast
  ring

/-! ### Claim theorems about the feature schemas -/

/-- Claim C1: for every weather observation and date, the rain feature
encoder produces a vector of exactly 14 elements, in exactly the order
max temperature, min temperature, max apparent temperature, min apparent
temperature, daylight duration, shortwave radiation sum, evapotranspiration,
max wind speed, max wind gust, wind-direction-sine, wind-direction-cosine,
heavy-rain-code indicator, season-sine, season-cosine. -/
theorem rain_feature_vector_schema (w : WeatherData) (month : ℕ) :
    (prepare_rain_features w month).length = 14 ∧
    prepare_rain_features w month =
      [ rawCell w "temperature_2m_max"
      , rawCell w "temperature_2m_min"
      , rawCell w "apparent_temperature_max"
      , rawCell w "apparent_temperature_min"
      , rawCell w "daylight_duration"
      , rawCell w "shortwave_radiation_sum"
      , rawCell w "et0_fao_evapotranspiration"
      , rawCell w "wind_speed_10m_max"
      , rawCell w "wind_gusts_10m_max"
      , some (Real.sin (radians (windDirectionOf w)))
      , some (Real.cos (radians (windDirectionOf w)))
      , some (heavyRainIndicator w)
      , some (Real.sin (monthAngle month))
      , some (Real.cos (monthAngle month)) ] := by
  constructor
  · rw [prepare_rain_features_eq]
    rfl
  · exact prepare_rain_features_eq w month

/-- Claim C2: for every weather observation and date, the precipitation
feature encoder produces a vector of exactly 13 elements in a fixed order
that includes the observation's own precipitation sum and precipitation
hours and includes sunshine duration, and whose schema contains neither
shortwave radiation sum nor evapotranspiration. -/
theorem precip_feature_vector_schema (w : WeatherData) (month : ℕ) :
    (prepare_precipitation_features w month).length = 13 ∧
    prepare_precipitation_features w month =
      [ rawCell w "precipitation_sum"
      , rawCell w "precipitation_hours"
      , rawCell w "temperature_2m_max"
      , rawCell w "temperature_2m_min"
      , rawCell w "apparent_temperature_max"
      , rawCell w "apparent_temperature_min"
      , rawCell w "sunshine_duration"
      , rawCell w "daylight_duration"
      , some (Real.sin (radians (windDirectionOf w)))
      , some (Real.cos (radians (windDirectionOf w)))
      , some (heavyRainIndicator w)
      , some (Real.sin (monthAngle month))
      , some (Real.cos (monthAngle month)) ] ∧
    "precipitation_sum" ∈ precip_feature_order ∧
    "precipitation_hours" ∈ precip_feature_order ∧
    "sunshine_duration" ∈ precip_feature_order ∧
    "shortwave_radiation_sum" ∉ precip_feature_order ∧
    "et0_fao_evapotranspiration" ∉ precip_feature_order := by
  refine ⟨?_, prepare_precipitation_features_eq w month, ?_, ?_, ?_, ?_, ?_⟩
  · rw [prepare_precipitation_features_eq]
    rfl
  · decide
  · decide
  · decide
  · decide
  · decide

/-- Claim C7: for every observation, the heavy-rain indicator feature (at
position 11 of the rain feature vector) equals 1 exactly when the weather
code is 63 or 65, equals 0 for every other code, and equals 0 when the code
is missing or null. -/
theorem heavy_rain_indicator_iff (w : WeatherData) (month : ℕ) :
    (((prepare_rain_features w month).get? 11 = some (some 1)) ↔
      (weatherCodeOf w = 63 ∨ weatherCodeOf w = 65)) ∧
    (((prepare_rain_features w month).get? 11 = some (some 0)) ↔
      ¬(weatherCodeOf w = 63 ∨ weatherCodeOf w = 65)) ∧
    (List.lookup "weather_code" w = none →
      (prepare_rain_features w month).get? 11 = some (some 0)) ∧
    (List.lookup "weather_code" w = some none →
      (prepare_rain_features w month).get? 11 = some (some 0)) := by
  have hcell : (prepare_rain_features w month).get? 11 =
      some (some (heavyRainIndicator w)) := by
    rw [prepare_rain_features_eq]
    rfl
  have hn : ¬(weatherCodeOf ([("weather_code", some 63)] : WeatherData) = 0) := by
    norm_num [weatherCodeOf, dictGet, List.lookup]
  refine ⟨?_, ?_, ?_, ?_⟩
  · rw [hcell]
    unfold heavyRainIndicator
    by_cases h : weatherCodeOf w = 63 ∨ weatherCodeOf w = 65
    · simp [h]
    · simp only [if_neg h]
      constructor
      · intro h01
        exfalso
        have : (0 : ℝ) = 1 := by
          injection h01 with h01
          injection h01
        norm_num at this
      · intro hc
        exact absurd hc h
  · rw [hcell]
    unfold heavyRainIndicator
    by_cases h : weatherCodeOf w = 63 ∨ weatherCodeOf w = 65
    · simp only [if_pos h]
      constructor
      · intro h10
        exfalso
        have : (1 : ℝ) = 0 := by
          injection h10 with h10
          injection h10
        norm_num at this
      · intro hc
        exact absurd h hc
    · simp [h]
  · intro h
    rw [hcell, heavyRainIndicator_of_not]
    rw [weatherCodeOf_of_absent h]
    norm_num
  · intro h
    rw [hcell, heavyRainIndicator_of_not]
    rw [weatherCodeOf_of_null h]
    norm_num

/-- Witness for C7: an observation whose weather code is 63 makes the
indicator cell 1. -/
theorem heavy_rain_indicator_iff_witness :
    (prepare_rain_features [("weather_code", some 63)] 9).get? 11 =
      some (some 1) := by
  refine (heavy_rain_indicator_iff [("weather_code", some 63)] 9).1.mpr ?_
  left
  norm_num [weatherCodeOf, dictGet, List.lookup]

/-- Claim C8: the circular encodings are periodic — the wind-direction
cells at 0 degrees and at 360 degrees are equal, and the season cells at
month 1 and at wrapped month 13 are equal. -/
theorem circular_encodings_periodic :
    ((prepare_rain_features [("wind_direction_10m_dominant", some 0)] 5).get? 9 =
      (prepare_rain_features [("wind_direction_10m_dominant", some 360)] 5).get? 9) ∧
    ((prepare_rain_features [("wind_direction_10m_dominant", some 0)] 5).get? 10 =
      (prepare_rain_features [("wind_direction_10m_dominant", some 360)] 5).get? 10) ∧
    ((prepare_rain_features [] 1).get? 12 = (prepare_rain_features [] 13).get? 12) ∧
    ((prepare_rain_features [] 1).get? 13 = (prepare_rain_features [] 13).get? 13) := by
  have h0 : windDirectionOf [("wind_direction_10m_dominant", some 0)] = 0 := by
    norm_num [windDirectionOf, dictGet, List.lookup]
  have h360 : windDirectionOf [("wind_direction_10m_dominant", some 360)] = 360 := by
    norm_num [windDirectionOf, dictGet, List.lookup]
  refine ⟨?_, ?_, ?_, ?_⟩
  · rw [prepare_rain_features_eq, prepare_rain_features_eq]
    show some (some (Real.sin (radians (windDirectionOf _)))) =
      some (some (Real.sin (radians (windDirectionOf _))))
    rw [h0, h360, radians_zero, radians_360, Real.sin_zero, Real.sin_two_pi]
  · rw [prepare_rain_features_eq, prepare_rain_features_eq]
    show some (some (Real.cos (radians (windDirectionOf _)))) =
      some (some (Real.cos (radians (windDirectionOf _))))
    rw [h0, h360, radians_zero, radians_360, Real.cos_zero, Real.cos_two_pi]
  · rw [prepare_rain_features_eq, prepare_rain_features_eq]
    show some (some (Real.sin (monthAngle 1))) =
      some (some (Real.sin (monthAngle 13)))
    rw [monthAngle_one, monthAngle_thirteen, Real.sin_zero, Real.sin_two_pi]
  · rw [prepare_rain_features_eq, prepare_rain_features_eq]
    show some (some (Real.cos (monthAngle 1))) =
      some (some (Real.cos (monthAngle 13)))
    rw [monthAngle_one, monthAngle_thirteen, Real.cos_zero, Real.cos_two_pi]

/-! ### Helper lemmas about the model cache -/

lemma load_rain_cached {M S : Type} {s : RainStorage M S}
    {st : RainCache M S} {m : M} (h : st.model = some m) :
    load_rain_models s st = (st, .ok (st.model, st.scaler, st.threshold)) := by
  unfold load_rain_models
  rw [h]

lemma load_rain_ok_inv {M S : Type} {s : RainStorage M S}
    {st st' : RainCache M S} {r : Option M × Option S × Option ℚ}
    (h : load_rain_models s st = (st', .ok r)) :
    r = (st'.model, st'.scaler, st'.threshold) ∧
      (st' = st ∨ ∃ m sc t, st' = RainCache.mk (some m) (some sc) (some t)) ∧
      (∃ m, st'.model = some m) := by
  unfold load_rain_models at h
  repeat' split at h
  all_goals injection h with h1 h2
  all_goals try exact Except.noConfusion h2
  · subst h1
    injection h2 with h3
    refine ⟨h3.symm, Or.inl rfl, ?_⟩
    exact ⟨_, by assumption⟩
  · subst h1
    injection h2 with h3
    exact ⟨h3.symm, Or.inr ⟨_, _, _, rfl⟩, _, rfl⟩

lemma load_rain_error_inv {M S : Type} {s : RainStorage M S}
    {st st' : RainCache M S} {e : PyError}
    (hc : ConsistentRain st) (h : load_rain_models s st = (st', .error e)) :
    st' = emptyRainCache M S := by
  rcases hc with rfl | ⟨m, sc, t, rfl⟩
  · unfold load_rain_models at h
    repeat' split at h
    all_goals injection h with h1 h2
    all_goals first
      | exact Except.noConfusion h2
      | exact h1.symm
  · rw [load_rain_cached
      (show (RainCache.mk (some m) (some sc) (some t)).model = some m from rfl)] at h
    injection h with h1 h2
    exact Except.noConfusion h2

lemma load_precip_cached {M S : Type} {s : PrecipStorage M S}
    {st : PrecipCache M S} {m : M} (h : st.model = some m) :
    load_precipitation_models s st = (st, .ok (st.model, st.scaler)) := by
  unfold load_precipitation_models
  rw [h]

lemma load_precip_ok_inv {M S : Type} {s : PrecipStorage M S}
    {st st' : PrecipCache M S} {r : Option M × Option S}
    (h : load_precipitation_models s st = (st', .ok r)) :
    r = (st'.model, st'.scaler) ∧
      (st' = st ∨ ∃ m sc, st' = PrecipCache.mk (some m) (some sc)) ∧
      (∃ m, st'.model = some m) := by
  unfold load_precipitation_models at h
  repeat' split at h
  all_goals injection h with h1 h2
  all_goals try exact Except.noConfusion h2
  · subst h1
    injection h2 with h3
    refine ⟨h3.symm, Or.inl rfl, ?_⟩
    exact ⟨_, by assumption⟩
  · subst h1
    injection h2 with h3
    exact ⟨h3.symm, Or.inr ⟨_, _, rfl⟩, _, rfl⟩

lemma load_precip_error_inv {M S : Type} {s : PrecipStorage M S}
    {st st' : PrecipCache M S} {e : PyError}
    (hc : ConsistentPrecip st)
    (h : load_precipitation_models s st = (st', .error e)) :
    st' = emptyPrecipCache M S := by
  rcases hc with rfl | ⟨m, sc, rfl⟩
  · unfold load_precipitation_models at h
    repeat' split at h
    all_goals injection h with h1 h2
    all_goals first
      | exact Except.noConfusion h2
      | exact h1.symm
  · rw [load_precip_cached
      (show (PrecipCache.mk (some m) (some sc)).model = some m from rfl)] at h
    injection h with h1 h2
    exact Except.noConfusion h2

/-- Claim C9: model-artifact loading is idempotent and all-or-nothing per
task — once a load succeeded, every later call returns the same cached
artifacts, whatever the storage now looks like; a failed load leaves the
cache of that task completely empty; and the reachable cache states (empty
or fully populated) are preserved. -/
theorem model_cache_idempotent_all_or_nothing (M S : Type) :
    (∀ (s s₂ : RainStorage M S) (st st' : RainCache M S) r,
      load_rain_models s st = (st', .ok r) →
      load_rain_models s₂ st' = (st', .ok r)) ∧
    (∀ (s : RainStorage M S) (st st' : RainCache M S) e,
      ConsistentRain st → load_rain_models s st = (st', .error e) →
      st' = emptyRainCache M S) ∧
    (∀ (s : RainStorage M S) (st : RainCache M S),
      ConsistentRain st → ConsistentRain (load_rain_models s st).1) ∧
    (∀ (s s₂ : PrecipStorage M S) (st st' : PrecipCache M S) r,
      load_precipitation_models s st = (st', .ok r) →
      load_precipitation_models s₂ st' = (st', .ok r)) ∧
    (∀ (s : PrecipStorage M S) (st st' : PrecipCache M S) e,
      ConsistentPrecip st → load_precipitation_models s st = (st', .error e) →
      st' = emptyPrecipCache M S) ∧
    (∀ (s : PrecipStorage M S) (st : PrecipCache M S),
      ConsistentPrecip st → ConsistentPrecip (load_precipitation_models s st).1) := by
  refine ⟨?_, ?_, ?_, ?_, ?_, ?_⟩
  · intro s s₂ st st' r h
    obtain ⟨hr, _, m, hm⟩ := load_rain_ok_inv h
    rw [hr]
    exact load_rain_cached hm
  · intro s st st' e hc h
    exact load_rain_error_inv hc h
  · intro s st hc
    cases hres : load_rain_models s st with
    | mk st' res =>
      cases res with
      | error e =>
        rw [show (st', Except.error e).1 = st' from rfl]
        exact Or.inl (load_rain_error_inv hc hres)
      | ok r =>
        rw [show (st', Except.ok r).1 = st' from rfl]
        obtain ⟨_, hst, _⟩ := load_rain_ok_inv hres
        rcases hst with rfl | hall
        · exact hc
        · exact Or.inr hall
  · intro s s₂ st st' r h
    obtain ⟨hr, _, m, hm⟩ := load_precip_ok_inv h
    rw [hr]
    exact load_precip_cached hm
  · intro s st st' e hc h
    exact load_precip_error_inv hc h
  · intro s st hc
    cases hres : load_precipitation_models s st with
    | mk st' res =>
      cases res with
      | error e =>
        rw [show (st', Except.error e).1 = st' from rfl]
        exact Or.inl (load_precip_error_inv hc hres)
      | ok r =>
        rw [show (st', Except.ok r).1 = st' from rfl]
        obtain ⟨_, hst, _⟩ := load_precip_ok_inv hres
        rcases hst with rfl | hall
        · exact hc
        · exact Or.inr hall

/-- Witness for C9: a concrete first load that succeeds (threshold 0) is
afterwards served from the cache even when the storage has been emptied,
and a concrete failing load (threshold 2, out of range) leaves the cache
empty. -/
theorem model_cache_idempotent_all_or_nothing_witness :
    (load_rain_models
        (RainStorage.mk false false false (.error "gone") (.error "gone") (.error "gone"))
        (RainCache.mk (some 1) (some 2) (some 0)) =
      ((RainCache.mk (some 1) (some 2) (some 0) : RainCache ℕ ℕ),
        .ok (some 1, some 2, some 0))) ∧
    ((load_rain_models
        (RainStorage.mk true true true (.ok 1) (.ok 2) (.ok 2))
        (emptyRainCache ℕ ℕ)).1 = emptyRainCache ℕ ℕ) := by
  constructor
  · exact (model_cache_idempotent_all_or_nothing ℕ ℕ).1
      (RainStorage.mk true true true (.ok 1) (.ok 2) (.ok 0))
      (RainStorage.mk false false false (.error "gone") (.error "gone") (.error "gone"))
      (emptyRainCache ℕ ℕ) (RainCache.mk (some 1) (some 2) (some 0))
      (some 1, some 2, some 0)
      (by simp [load_rain_models, emptyRainCache])
  · have h := (model_cache_idempotent_all_or_nothing ℕ ℕ).2.1
      (RainStorage.mk true true true (.ok 1) (.ok 2) (.ok 2))
      (emptyRainCache ℕ ℕ)
      (emptyRainCache ℕ ℕ)
      (.runtimeError "Threshold must be between 0 and 1")
      (Or.inl rfl)
      (by simp [load_rain_models, emptyRainCache])
    rw [show load_rain_models
        (RainStorage.mk true true true (.ok 1) (.ok 2) (.ok 2))
        (emptyRainCache ℕ ℕ) =
      (emptyRainCache ℕ ℕ,
        .error (.runtimeError "Threshold must be between 0 and 1")) from
      by simp [load_rain_models, emptyRainCache]]

/-! ### Error kinds of the weather fetchers (claim C10) -/

/-- Claim C10 counterexample: a non-success HTTP status (here 502) from the
weather collaborator makes `fetch_weather_for_date` raise a `ValueError` —
the very same error kind raised for a malformed date — so callers cannot
tell the upstream failure apart from a local input error by kind alone. -/
theorem upstream_error_kind_counterexample :
    fetch_weather_for_date (some (Date.mk 2024 9 15)) (Date.mk 2024 9 16)
        (.response 502 .noDaily) =
      .error (.valueError "Open Meteo API returned error") ∧
    fetch_weather_for_date none (Date.mk 2024 9 16) (.response 502 .noDaily) =
      .error (.valueError "Invalid date format") ∧
    PyError.isValueError (.valueError "Open Meteo API returned error") =
      PyError.isValueError (.valueError "Invalid date format") := by
  refine ⟨?_, rfl, rfl⟩
  rfl

/-- Claim C10 amended: network errors, timeouts and unexpected request
exceptions surface from both fetchers as `ConnectionError`, distinct from
the `ValueError` used for malformed and future dates; but a non-success
HTTP status surfaces from `fetch_weather_for_date` (the fetcher used by the
pipeline) as a `ValueError`, the same kind as a local input error — only
the alternative `get_weather` turns a 4xx/5xx status into
`ConnectionError`. -/
theorem upstream_error_kinds_amended :
    (∀ (d today : Date) (net : NetOutcome), Date.ltB today d = false →
      (net = .timeout ∨ net = .connectionFailed ∨ net = .otherException) →
      ∃ msg, fetch_weather_for_date (some d) today net =
        .error (.connectionError msg)) ∧
    (∀ (d today : Date) (status : ℕ) (body : Body), Date.ltB today d = false →
      status ≠ 200 →
      ∃ msg, fetch_weather_for_date (some d) today (.response status body) =
        .error (.valueError msg)) ∧
    (∀ (today : Date) (net : NetOutcome),
      ∃ msg, fetch_weather_for_date none today net = .error (.valueError msg)) ∧
    (∀ (d today : Date) (net : NetOutcome), Date.ltB today d = true →
      ∃ msg, fetch_weather_for_date (some d) today net =
        .error (.valueError msg)) ∧
    (∀ (d today : Date) (net : NetOutcome), Date.ltB today d = false →
      (net = .timeout ∨ net = .connectionFailed ∨ net = .otherException) →
      ∃ msg, get_weather (some d) today net = .error (.connectionError msg)) ∧
    (∀ (d today : Date) (status : ℕ) (body : Body), Date.ltB today d = false →
      400 ≤ status →
      ∃ msg, get_weather (some d) today (.response status body) =
        .error (.connectionError msg)) := by
  refine ⟨?_, ?_, ?_, ?_, ?_, ?_⟩
  · intro d today net hlt hnet
    rcases hnet with rfl | rfl | rfl
    · exact ⟨"API request timed out", by simp [fetch_weather_for_date, hlt]⟩
    · exact ⟨"Failed to connect to Open Meteo API",
        by simp [fetch_weather_for_date, hlt]⟩
    · exact ⟨"Unexpected error connecting to API",
        by simp [fetch_weather_for_date, hlt]⟩
  · intro d today status body hlt hst
    exact ⟨"Open Meteo API returned error",
      by simp [fetch_weather_for_date, hlt, hst]⟩
  · intro today net
    exact ⟨"Invalid date format", rfl⟩
  · intro d today net hlt
    exact ⟨"Cannot fetch weather data for future date",
      by simp [fetch_weather_for_date, hlt]⟩
  · intro d today net hlt hnet
    rcases hnet with rfl | rfl | rfl <;>
      exact ⟨"Failed to fetch weather data", by simp [get_weather, hlt]⟩
  · intro d today status body hlt hst
    exact ⟨"Failed to fetch weather data", by simp [get_weather, hlt, hst]⟩

/-- Witness for C10 amended: a timeout on a past date yields a
`ConnectionError`, a 502 status a `ValueError`. -/
theorem upstream_error_kinds_amended_witness :
    (∃ msg, fetch_weather_for_date (some (Date.mk 2024 9 15))
        (Date.mk 2024 9 16) .timeout = .error (.connectionError msg)) ∧
    (∃ msg, fetch_weather_for_date (some (Date.mk 2024 9 15))
        (Date.mk 2024 9 16) (.response 502 .noDaily) =
        .error (.valueError msg)) ∧
    (∃ msg, get_weather (some (Date.mk 2024 9 15)) (Date.mk 2024 9 16)
        (.response 502 .noDaily) = .error (.connectionError msg)) := by
  refine ⟨?_, ?_, ?_⟩
  · exact upstream_error_kinds_amended.1 (Date.mk 2024 9 15) (Date.mk 2024 9 16)
      .timeout rfl (Or.inl rfl)
  · exact upstream_error_kinds_amended.2.1 (Date.mk 2024 9 15) (Date.mk 2024 9 16)
      502 .noDaily rfl (by decide)
  · exact upstream_error_kinds_amended.2.2.2.2.2 (Date.mk 2024 9 15)
      (Date.mk 2024 9 16) 502 .noDaily rfl (by decide)

/-! ### Success form of the two predictors -/

lemma predict_rain_ok {date_str : String} {d : Date}
    {storage : RainStorage RainModel Scaler}
    {cache cache' : RainCache RainModel Scaler} {m : RainModel} {sc : Scaler}
    {th : ℚ} {today : Date} {net : NetOutcome} {w : WeatherData}
    (hload : load_rain_models storage cache =
      (cache', .ok (some m, some sc, some th)))
    (hfetch : fetch_weather_for_date (some d) today net = .ok w) :
    predict_rain date_str (some d) storage cache today net =
      (cache', .ok
        (RainResult.mk date_str
          (RainPrediction.mk (formatDate (addDays d 7))
            (decide (m.predict_proba (sc.transform
              (prepare_rain_features w d.month)) ≥ th))))) := by
  unfold predict_rain
  simp only [hload, hfetch]

lemma predict_precip_ok {date_str : String} {d : Date}
    {storage : PrecipStorage PrecipModel Scaler}
    {cache cache' : PrecipCache PrecipModel Scaler} {m : PrecipModel}
    {sc : Scaler} {today : Date} {net : NetOutcome} {w : WeatherData}
    (hload : load_precipitation_models storage cache =
      (cache', .ok (some m, some sc)))
    (hfetch : fetch_weather_for_date (some d) today net = .ok w) :
    predict_precipitation date_str (some d) storage cache today net =
      (cache', .ok
        (PrecipResult.mk date_str
          (PrecipPrediction.mk (formatDate (addDays d 1))
            (formatDate (addDays d 3))
            (formatOneDec (max 0 (m.predict (sc.transform
              (prepare_precipitation_features w d.month)))))))) := by
  unfold predict_precipitation
  simp only [hload, hfetch]

lemma formatOneDec_nonneg_shape (q : ℚ) (h : 0 ≤ q) :
    ∃ n : ℕ, formatOneDec q =
      toString (n / 10) ++ "." ++ String.singleton (Nat.digitChar (n % 10)) := by
  refine ⟨(roundHalfEven (|q| * 10)).toNat, ?_⟩
  unfold formatOneDec
  rw [if_neg (not_lt.mpr h)]
  simp

lemma formatOneDec_zero : formatOneDec 0 = "0.0" := by
  norm_num [formatOneDec, roundHalfEven]
  rfl

lemma max_clamp_neg_three_tenths : max (0 : ℚ) (-3 / 10) = 0 := by
  norm_num

/-! ### The pipeline claims C3, C4, C5 -/

/-- Claim C3: whenever the rain predictor returns a result, its boolean
outcome equals `rain-class probability >= threshold`, with an inclusive
boundary: a probability exactly equal to the stored threshold gives
`will_rain = true`. -/
theorem rain_threshold_inclusive
    (date_str : String) (d : Date) (storage : RainStorage RainModel Scaler)
    (cache cache' : RainCache RainModel Scaler) (m : RainModel) (sc : Scaler)
    (th : ℚ) (today : Date) (net : NetOutcome) (w : WeatherData)
    (r : RainResult)
    (hload : load_rain_models storage cache =
      (cache', .ok (some m, some sc, some th)))
    (hfetch : fetch_weather_for_date (some d) today net = .ok w)
    (hr : (predict_rain date_str (some d) storage cache today net).2 = .ok r) :
    (r.prediction.will_rain = true ↔
      m.predict_proba (sc.transform (prepare_rain_features w d.month)) ≥ th) ∧
    (m.predict_proba (sc.transform (prepare_rain_features w d.month)) = th →
      r.prediction.will_rain = true) := by
  rw [predict_rain_ok hload hfetch] at hr
  simp only [Except.ok.injEq] at hr
  subst hr
  constructor
  · exact decide_eq_true_iff
  · intro he
    exact decide_eq_true (ge_of_eq he)

/-- Claim C4: whenever the rain predictor returns a result for a valid
input date `d`, the returned prediction date is `d + 7` days, formatted as
`YYYY-MM-DD`. -/
theorem rain_target_date_plus_seven
    (date_str : String) (d : Date) (storage : RainStorage RainModel Scaler)
    (cache cache' : RainCache RainModel Scaler) (m : RainModel) (sc : Scaler)
    (th : ℚ) (today : Date) (net : NetOutcome) (w : WeatherData)
    (r : RainResult) (hv : ValidDate d)
    (hload : load_rain_models storage cache =
      (cache', .ok (some m, some sc, some th)))
    (hfetch : fetch_weather_for_date (some d) today net = .ok w)
    (hr : (predict_rain date_str (some d) storage cache today net).2 = .ok r) :
    r.prediction.date = formatDate (addDays d 7) := by
  rw [predict_rain_ok hload hfetch] at hr
  simp only [Except.ok.injEq] at hr
  subst hr
  rfl

/-- Claim C5: whenever the precipitation predictor returns a result, its
window is `[d+1, d+3]`, its amount string is the one-decimal rendering of
the raw model output clamped below at 0, and that string always has the
shape `digits.digit` with no sign. -/
theorem precip_window_and_clamped_amount
    (date_str : String) (d : Date)
    (storage : PrecipStorage PrecipModel Scaler)
    (cache cache' : PrecipCache PrecipModel Scaler) (m : PrecipModel)
    (sc : Scaler) (today : Date) (net : NetOutcome) (w : WeatherData)
    (r : PrecipResult)
    (hload : load_precipitation_models storage cache =
      (cache', .ok (some m, some sc)))
    (hfetch : fetch_weather_for_date (some d) today net = .ok w)
    (hr : (predict_precipitation date_str (some d) storage cache
      today net).2 = .ok r) :
    r.prediction.start_date = formatDate (addDays d 1) ∧
    r.prediction.end_date = formatDate (addDays d 3) ∧
    r.prediction.precipitation_fall =
      formatOneDec (max 0 (m.predict (sc.transform
        (prepare_precipitation_features w d.month)))) ∧
    ∃ n : ℕ, r.prediction.precipitation_fall =
      toString (n / 10) ++ "." ++ String.singleton (Nat.digitChar (n % 10)) := by
  rw [predict_precip_ok hload hfetch] at hr
  simp only [Except.ok.injEq] at hr
  subst hr
  refine ⟨rfl, rfl, rfl, ?_⟩
  exact formatOneDec_nonneg_shape _ (le_max_left 0 _)

/-- Witness for C3: a concrete run whose model probability exactly equals
the stored threshold (both 0) yields `will_rain = true`. -/
theorem rain_threshold_inclusive_witness :
    ((predict_rain "2024-09-15" (some D0) RST0
        (emptyRainCache RainModel Scaler) TODAY0 NET0).2 = .ok R1) ∧
    M0.predict_proba (SC0.transform (prepare_rain_features W0 D0.month)) = 0 ∧
    R1.prediction.will_rain = true := by
  have hload : load_rain_models RST0 (emptyRainCache RainModel Scaler) =
      (RCACHE1, .ok (some M0, some SC0, some 0)) := by rfl
  have hfetch : fetch_weather_for_date (some D0) TODAY0 NET0 = .ok W0 := by rfl
  have hr : (predict_rain "2024-09-15" (some D0) RST0
      (emptyRainCache RainModel Scaler) TODAY0 NET0).2 = .ok R1 := by
    rw [predict_rain_ok hload hfetch]
    show Except.ok (RainResult.mk "2024-09-15"
      (RainPrediction.mk (formatDate (addDays D0 7))
        (decide (M0.predict_proba (SC0.transform
          (prepare_rain_features W0 D0.month)) ≥ 0)))) = Except.ok R1
    rw [show formatDate (addDays D0 7) = "2024-09-22" from by decide]
    rfl
  refine ⟨hr, rfl, ?_⟩
  exact (rain_threshold_inclusive "2024-09-15" D0 RST0
    (emptyRainCache RainModel Scaler) RCACHE1 M0 SC0 0 TODAY0 NET0 W0 R1
    hload hfetch hr).2 rfl

/-- Witness for C4: input date 2024-09-15 yields prediction date
2024-09-22. -/
theorem rain_target_date_plus_seven_witness :
    ValidDate D0 ∧
    ((predict_rain "2024-09-15" (some D0) RST0
        (emptyRainCache RainModel Scaler) TODAY0 NET0).2 = .ok R1) ∧
    R1.prediction.date = "2024-09-22" := by
  have hload : load_rain_models RST0 (emptyRainCache RainModel Scaler) =
      (RCACHE1, .ok (some M0, some SC0, some 0)) := by rfl
  have hfetch : fetch_weather_for_date (some D0) TODAY0 NET0 = .ok W0 := by rfl
  have hr : (predict_rain "2024-09-15" (some D0) RST0
      (emptyRainCache RainModel Scaler) TODAY0 NET0).2 = .ok R1 := by
    rw [predict_rain_ok hload hfetch]
    show Except.ok (RainResult.mk "2024-09-15"
      (RainPrediction.mk (formatDate (addDays D0 7))
        (decide (M0.predict_proba (SC0.transform
          (prepare_rain_features W0 D0.month)) ≥ 0)))) = Except.ok R1
    rw [show formatDate (addDays D0 7) = "2024-09-22" from by decide]
    rfl
  refine ⟨by decide, hr, ?_⟩
  exact (rain_target_date_plus_seven "2024-09-15" D0 RST0
    (emptyRainCache RainModel Scaler) RCACHE1 M0 SC0 0 TODAY0 NET0 W0 R1
    (by decide) hload hfetch hr).trans (by decide)

/-- Witness for C5: a raw model output of -0.3 yields the window
2024-09-16 .. 2024-09-18 and the amount string "0.0". -/
theorem precip_window_and_clamped_amount_witness :
    ((predict_precipitation "2024-09-15" (some D0) PST0
        (emptyPrecipCache PrecipModel Scaler) TODAY0 NET0).2 = .ok P1) ∧
    P1.prediction.start_date = "2024-09-16" ∧
    P1.prediction.end_date = "2024-09-18" ∧
    P1.prediction.precipitation_fall = "0.0" := by
  have hload : load_precipitation_models PST0
      (emptyPrecipCache PrecipModel Scaler) =
      (PCACHE1, .ok (some PM0, some SC0)) := by rfl
  have hfetch : fetch_weather_for_date (some D0) TODAY0 NET0 = .ok W0 := by rfl
  have hamt : formatOneDec (max 0 (PM0.predict (SC0.transform
      (prepare_precipitation_features W0 D0.month)))) = "0.0" := by
    rw [show PM0.predict (SC0.transform
        (prepare_precipitation_features W0 D0.month)) = -3 / 10 from rfl,
      max_clamp_neg_three_tenths, formatOneDec_zero]
  have hr : (predict_precipitation "2024-09-15" (some D0) PST0
      (emptyPrecipCache PrecipModel Scaler) TODAY0 NET0).2 = .ok P1 := by
    rw [predict_precip_ok hload hfetch]
    show Except.ok (PrecipResult.mk "2024-09-15"
      (PrecipPrediction.mk (formatDate (addDays D0 1))
        (formatDate (addDays D0 3))
        (formatOneDec (max 0 (PM0.predict (SC0.transform
          (prepare_precipitation_features W0 D0.month))))))) = Except.ok P1
    rw [show formatDate (addDays D0 1) = "2024-09-16" from by decide,
      show formatDate (addDays D0 3) = "2024-09-18" from by decide, hamt]
    rfl
  have h := precip_window_and_clamped_amount "2024-09-15" D0 PST0
    (emptyPrecipCache PrecipModel Scaler) PCACHE1 PM0 SC0 TODAY0 NET0 W0 P1
    hload hfetch hr
  exact ⟨hr, h.1.trans (by decide), h.2.1.trans (by decide),
    h.2.2.1.trans hamt⟩

/-! ### Missing and null measurements (claim C6) -/

/-- Claim C6 counterexample: a measurement present with a null value (here
max temperature) is not replaced by 0 — the null is carried verbatim into
the feature vector, whose first cell becomes `none` instead of 0. -/
theorem null_measurement_propagates_counterexample :
    (prepare_rain_features [("temperature_2m_max", none)] 1).get? 0 =
      some none ∧
    (prepare_rain_features [("temperature_2m_max", none)] 1).get? 0 ≠
      some (some 0) := by
  constructor
  · rw [prepare_rain_features_eq]
    rfl
  · rw [prepare_rain_features_eq]
    show some (rawCell [("temperature_2m_max", none)] "temperature_2m_max") ≠
      some (some 0)
    rw [show rawCell [("temperature_2m_max", none)] "temperature_2m_max" =
      none from rfl]
    simp

/-- Claim C6 amended: a measurement whose key is absent contributes 0 to
either feature vector, and a null value is replaced by 0 for wind direction
and weather code (the only fields with an explicit `None` guard); a null in
any other present measurement is propagated into the vector, as the
counterexample shows. -/
theorem missing_measurement_defaults_amended :
    (∀ (w : WeatherData) (month : ℕ) (name : String) (i : ℕ),
      (name, i) ∈ rain_direct_positions → List.lookup name w = none →
      (prepare_rain_features w month).get? i = some (some 0)) ∧
    (∀ (w : WeatherData) (month : ℕ) (name : String) (i : ℕ),
      (name, i) ∈ precip_direct_positions → List.lookup name w = none →
      (prepare_precipitation_features w month).get? i = some (some 0)) ∧
    (∀ (w : WeatherData) (month : ℕ),
      List.lookup "wind_direction_10m_dominant" w = some none →
      (prepare_rain_features w month).get? 9 =
        some (some (Real.sin (radians 0))) ∧
      (prepare_rain_features w month).get? 10 =
        some (some (Real.cos (radians 0)))) ∧
    (∀ (w : WeatherData) (month : ℕ),
      List.lookup "weather_code" w = some none →
      (prepare_rain_features w month).get? 11 = some (some 0)) := by
  refine ⟨?_, ?_, ?_, ?_⟩
  · intro w month name i hmem hlook
    fin_cases hmem <;>
      (rw [prepare_rain_features_eq]
       show some (rawCell w _) = some (some 0)
       rw [rawCell_of_absent hlook])
  · intro w month name i hmem hlook
    fin_cases hmem <;>
      (rw [prepare_precipitation_features_eq]
       show some (rawCell w _) = some (some 0)
       rw [rawCell_of_absent hlook])
  · intro w month hlook
    constructor
    · rw [prepare_rain_features_eq]
      show some (some (Real.sin (radians (windDirectionOf w)))) =
        some (some (Real.sin (radians 0)))
      rw [windDirectionOf_of_null hlook]
    · rw [prepare_rain_features_eq]
      show some (some (Real.cos (radians (windDirectionOf w)))) =
        some (some (Real.cos (radians 0)))
      rw [windDirectionOf_of_null hlook]
  · intro w month hlook
    have h0 : weatherCodeOf w = 0 := weatherCodeOf_of_null hlook
    rw [prepare_rain_features_eq]
    show some (some (heavyRainIndicator w)) = some (some 0)
    rw [heavyRainIndicator_of_not (by rw [h0]; norm_num)]

/-- Witness for C6 amended: in the empty observation, the max-temperature
cell of the rain vector is 0. -/
theorem missing_measurement_defaults_amended_witness :
    (prepare_rain_features [] 3).get? 0 = some (some 0) :=
  missing_measurement_defaults_amended.1 [] 3 "temperature_2m_max" 0
    (by decide) rfl

end WeatherApp
